import Mathlib

/-!
# Verification of the `atomic init` command (senantix/atomicui)

Shallow embedding of `src/commands/init.ts`: the `init` command action,
`promptForProjectDetails`, and `runInit`, together with spec-modelled
collaborators (`checkPackageExists`, `resolveConfigPaths`, the remote data
client, the package-manager detector and the top-level error handler, whose
code lives outside the provided sources).

The external world (filesystem, operator answers at each prompt, remote
service responses, subprocess result) is captured by an `Env` record; the
whole run is a deterministic function `init : Env → RunResult` returning the
process outcome (exit code), the final filesystem, and a trace of the
pipeline events that occurred, in order.
-/

namespace AtomicUI

/-- A theme catalog entry returned by the remote service: `{ id, name }`. -/
structure Theme where
  id : String
  name : String
deriving DecidableEq, Repr

/-- The `theme` part of the persisted configuration:
`{ name: options.theme, css: options.globalCSS }`. -/
structure ThemeConfig where
  name : String
  css : String
deriving DecidableEq, Repr

/-- The `alias` part of the persisted configuration:
`{ components: options.components }`. -/
structure AliasConfig where
  components : String
deriving DecidableEq, Repr

/-- The raw configuration assembled from the prompt answers
(`atomicComponentsConfig` in `promptForProjectDetails`). -/
structure ProjectConfig where
  theme : ThemeConfig
  «alias» : AliasConfig
deriving DecidableEq, Repr

/-- Absolute paths produced by `resolveConfigPaths`. -/
structure ResolvedPaths where
  components : String
  css : String
deriving DecidableEq, Repr

/-- The `Config` type of `@/utils/get-config`: the raw project configuration
together with its resolved paths. -/
structure Config extends ProjectConfig where
  resolvedPaths : ResolvedPaths
deriving DecidableEq, Repr

/-- The payload fetched by `getInitData`: stylesheet text and the ordered
dependency list. -/
structure InitPayload where
  css : String
  dependencies : List String
deriving DecidableEq, Repr

/-! ## JSON values

Only the fragment needed for `getatomic.components.json` (string leaves and
objects): the file is written with `JSON.stringify(atomicComponentsConfig)`
whose value contains nothing else. -/

/-- A JSON value: a string leaf or an object with ordered fields. -/
inductive Json where
  | str (s : String)
  | obj (fields : List (String × Json))

/-- Look a key up among an object's fields (first match). -/
def Json.getField : Json → String → Option Json
  | .obj fields, key => go fields key
  | .str _, _ => none
where
  go : List (String × Json) → String → Option Json
    | [], _ => none
    | (k, v) :: rest, key => if k = key then some v else go rest key

/-- Extract the string of a string leaf. -/
def Json.asString : Json → Option String
  | .str s => some s
  | .obj _ => none

/-- The JSON value `JSON.stringify` serialises for the config file:
`{ "theme": { "name": ..., "css": ... }, "alias": { "components": ... } }`. -/
def encodeConfig (c : ProjectConfig) : Json :=
  .obj
    [("theme", .obj [("name", .str c.theme.name), ("css", .str c.theme.css)]),
     ("alias", .obj [("components", .str c.«alias».components)])]

/-- Parse a `ProjectConfig` back out of a JSON value (`JSON.parse` followed by
reading the three string fields). -/
def decodeConfig (j : Json) : Option ProjectConfig := do
  let theme ← j.getField "theme"
  let name ← (← theme.getField "name").asString
  let css ← (← theme.getField "css").asString
  let aliasObj ← j.getField "alias"
  let components ← (← aliasObj.getField "components").asString
  pure ⟨⟨name, css⟩, ⟨components⟩⟩

/-! ## Filesystem model

A flat association list from absolute path strings to entries; a fresh write
shadows older bindings, `unlink` removes every binding of the path. -/

/-- A filesystem entry: a text file, a JSON file, or a directory. -/
inductive FileData where
  | text (s : String)
  | jsonFile (j : Json)
  | dir

/-- The filesystem: newest binding first. -/
abbrev FS := List (String × FileData)

/-- Read the entry at a path (`undefined` when absent). -/
def FS.readAt : FS → String → Option FileData
  | [], _ => none
  | (q, d) :: rest, p => if q = p then some d else FS.readAt rest p

/-- Model of `existsSync`. -/
def FS.pathExists (fs : FS) (p : String) : Bool :=
  (fs.readAt p).isSome

/-- Model of `fs.writeFile` and `fs.mkdir`: record a new binding for the path. -/
def FS.write (fs : FS) (p : String) (d : FileData) : FS :=
  (p, d) :: fs

/-- Model of `fs.unlink`: remove the path entirely. -/
def FS.unlink (fs : FS) (p : String) : FS :=
  fs.filter (fun e => decide (e.1 ≠ p))

/-- Model of `path.resolve(cwd, p)` for an absolute `cwd` and relative `p`. -/
def pathResolve (cwd p : String) : String :=
  cwd ++ "/" ++ p

/-- The characters strictly before the last `/` of the list (empty when no
`/` occurs). -/
def beforeLastSlash : List Char → List Char
  | [] => []
  | c :: cs => if '/' ∈ cs then c :: beforeLastSlash cs else []

/-- Model of `path.dirname`: everything before the last `/`. -/
def dirname (p : String) : String :=
  ⟨beforeLastSlash p.data⟩

/-- The config file name used throughout `init.ts`. -/
def configFileName : String := "getatomic.components.json"

/-- Default suggested in the global-CSS prompt. -/
def defaultGlobalCSS : String := "app/globals.css"

/-- Default suggested in the components-alias prompt. -/
def defaultComponentsAlias : String := "@/components/getatomic"

/-- Error message thrown by the prompts `onCancel` handler. -/
def cancelMessage : String := "Terminated Atomic UI setup."

/-- Error message thrown when a resolved path is empty. -/
def resolveFailMessage : String :=
  "Failed to resolve components alias, please enter a valid alias."

/-! ## The external world -/

/-- Everything outside the program that one `init` run observes: the initial
filesystem, the manifest's declared dependencies, the remote service
responses, the operator's answer (or cancellation, `none`) at each prompt,
the project's alias resolution, the detected package manager and the install
subprocess result. -/
structure Env where
  /-- The already-resolved absolute working directory (`path.resolve(options.cwd)`). -/
  cwd : String
  /-- The filesystem when the run starts. -/
  fs0 : FS
  /-- Modelled from the spec: the dependency names declared in the target's
  package manifest, inspected by `checkPackageExists` (`@/utils/get-package-info`,
  not among the provided sources). -/
  declaredDeps : List String
  /-- Result of `getThemes()`: the theme list, or a failure message. -/
  themes : Except String (List Theme)
  /-- The select prompt: index of the chosen theme among the offered choices,
  `none` when the operator cancels. -/
  themeAnswer : Option Nat
  /-- The global-CSS text prompt: the entered path, `none` on cancel. -/
  cssAnswer : Option String
  /-- The components-alias text prompt: the entered alias, `none` on cancel. -/
  componentsAnswer : Option String
  /-- The final confirm prompt: the yes/no answer; `none` on cancel (the call
  has no `onCancel` handler, so cancelling leaves `proceed` undefined). -/
  proceedAnswer : Option Bool
  /-- Modelled from the spec: the project's alias resolution for the
  components alias (`resolveConfigPaths`, `@/utils/get-config`, not among the
  provided sources); yields `""` for a missing alias declaration, never throws. -/
  resolveComponents : String → String
  /-- Modelled from the spec: the project's alias resolution for the
  stylesheet path; yields `""` for a missing declaration, never throws. -/
  resolveCss : String → String
  /-- Result of `getInitData({ theme })`: the payload, or a failure message. -/
  initData : Except String InitPayload
  /-- Modelled from the spec: the package manager detected from the target's
  lockfiles (`getPackageManager`, not among the provided sources). -/
  packageManager : String
  /-- Whether the spawned install subprocess exits zero. -/
  installOk : Bool

/-- Modelled from the spec: `checkPackageExists(pkg, cwd)` — whether `pkg`
is declared as a dependency in the target's package manifest
(`@/utils/get-package-info` is not among the provided sources). -/
def checkPackageExists (pkg : String) (env : Env) : Bool :=
  env.declaredDeps.contains pkg

/-- Modelled from the spec: `resolveConfigPaths(cwd, config)` — combines the
project's alias declarations with the user-supplied strings to produce the
resolved absolute paths; an unresolvable alias yields `""` rather than a
throw (`@/utils/get-config` is not among the provided sources). -/
def resolveConfigPaths (env : Env) (cfg : ProjectConfig) : Config :=
  { toProjectConfig := cfg,
    resolvedPaths :=
      { components := env.resolveComponents cfg.«alias».components,
        css := env.resolveCss cfg.theme.css } }

/-! ## Events and outcomes -/

/-- Observable pipeline events, in the order they occur. The nine
step-completion events mirror the spec's state machine; the rest are
finer-grained observations (remote calls, the confirm prompt, log lines,
subprocess spawns, and the error handler's actions). -/
inductive Event where
  | validateTarget
  | validatePackageJson
  | validateFramework
  | fetchThemes
  | promptAndResolve
  | confirmPrompt
  | persistConfig
  | ensureComponentsDir
  | fetchInitPayload
  | writeStylesheet
  | logNoDeps
  | spawn (pm : String) (args : List String) (inheritStdio : Bool)
  | handleErrorEv (msg : String)
  | unlinkConfig
  | installDependencies
deriving DecidableEq, Repr

/-- Whether an event is one of the spec's nine pipeline steps. -/
def Event.isStep : Event → Bool
  | .validateTarget | .validatePackageJson | .validateFramework
  | .promptAndResolve | .persistConfig | .ensureComponentsDir
  | .fetchInitPayload | .writeStylesheet | .installDependencies => true
  | _ => false

/-- Whether an event is a subprocess spawn. -/
def Event.isSpawn : Event → Bool
  | .spawn _ _ _ => true
  | _ => false

/-- How the process terminated. -/
inductive Outcome where
  | exited (code : Nat)
deriving DecidableEq, Repr

/-- The result of a whole run: exit status, final filesystem, event trace. -/
structure RunResult where
  outcome : Outcome
  fs : FS
  trace : List Event

/-- The `catch` block of the `init` action: `handleError` prints the message
(modelled from the spec: the top-level handler reports a human-readable
message and the process exits non-zero; `@/utils/handle-error` is not among
the provided sources), then the config file is unlinked when it exists. -/
def handleFailure (env : Env) (fs : FS) (tr : List Event) (msg : String) :
    RunResult :=
  let configPath := pathResolve env.cwd configFileName
  if fs.pathExists configPath then
    { outcome := .exited 1,
      fs := fs.unlink configPath,
      trace := tr ++ [.handleErrorEv msg, .unlinkConfig] }
  else
    { outcome := .exited 1, fs := fs, trace := tr ++ [.handleErrorEv msg] }

/-- Result of `promptForProjectDetails`: an exception that propagates to the
`catch` block, a `process.exit(0)` (confirmation declined or cancelled), or
the resolved config after the config file has been written. -/
inductive PromptResult where
  | threw (msg : String) (fs : FS) (tr : List Event)
  | exitZero (fs : FS) (tr : List Event)
  | ok (raw : ProjectConfig) (cfg : Config) (fs : FS) (tr : List Event)

/-- Model of `promptForProjectDetails(cwd)`: fetch the theme list, run the three
prompts (the select prompt offers `themes.map(t => {title: t.name, value:
t.id})` and yields the chosen choice's `value`; cancellation of any of the
three triggers `onCancel`, which throws), assemble `atomicComponentsConfig`,
resolve paths, fail when either resolved path is empty, ask the final
confirmation (no `onCancel`: cancelling leaves `proceed` undefined, so both
"no" and cancel take the `process.exit(0)` branch), then write the config
file. A select prompt cannot yield an index outside its choices; an
out-of-range index in the model is treated as a cancellation. -/
def promptForProjectDetails (env : Env) (fs : FS) : PromptResult :=
  match env.themes with
  | .error msg => .threw msg fs []
  | .ok themes =>
    match env.themeAnswer with
    | none => .threw cancelMessage fs [.fetchThemes]
    | some i =>
    match themes[i]? with
    | none => .threw cancelMessage fs [.fetchThemes]
    | some t =>
      match env.cssAnswer with
      | none => .threw cancelMessage fs [.fetchThemes]
      | some css =>
        match env.componentsAnswer with
        | none => .threw cancelMessage fs [.fetchThemes]
        | some comps =>
          let raw : ProjectConfig := ⟨⟨t.id, css⟩, ⟨comps⟩⟩
          let resolved := resolveConfigPaths env raw
          if resolved.resolvedPaths.components = "" ∨
              resolved.resolvedPaths.css = "" then
            .threw resolveFailMessage fs [.fetchThemes]
          else
            let proceed := env.proceedAnswer.getD false
            if !proceed then
              .exitZero fs [.fetchThemes, .promptAndResolve, .confirmPrompt]
            else
              let targetPath := pathResolve env.cwd configFileName
              let fs1 := fs.write targetPath (.jsonFile (encodeConfig raw))
              .ok raw resolved fs1
                [.fetchThemes, .promptAndResolve, .confirmPrompt,
                 .persistConfig]

/-- Model of `runInit(cwd, config)`: ensure the components directory exists, fetch the
init payload for the chosen theme, create the stylesheet's parent directory
when the path is new, write the stylesheet, then either log that there is
nothing to install or spawn the detected package manager (verb `install` for
npm, `add` otherwise) with the dependency list, inheriting standard I/O, and
wait for it; a thrown error (failed fetch or failed subprocess) propagates to
the `init` action's `catch` block. -/
def runInit (env : Env) (fs : FS) (tr : List Event) (config : Config) :
    RunResult :=
  let fs1 :=
    if fs.pathExists config.resolvedPaths.components then fs
    else fs.write config.resolvedPaths.components .dir
  let tr1 := tr ++ [.ensureComponentsDir]
  match env.initData with
  | .error msg => handleFailure env fs1 tr1 msg
  | .ok payload =>
    let tr2 := tr1 ++ [.fetchInitPayload]
    let fs2 :=
      if fs1.pathExists config.resolvedPaths.css then fs1
      else fs1.write (dirname config.resolvedPaths.css) .dir
    let fs3 := fs2.write config.resolvedPaths.css (.text payload.css)
    let tr3 := tr2 ++ [.writeStylesheet]
    if payload.dependencies.isEmpty then
      { outcome := .exited 0, fs := fs3,
        trace := tr3 ++ [.logNoDeps, .installDependencies] }
    else
      let pm := env.packageManager
      let args := (if pm = "npm" then "install" else "add") ::
        payload.dependencies
      let tr4 := tr3 ++ [.spawn pm args true]
      if env.installOk then
        { outcome := .exited 0, fs := fs3,
          trace := tr4 ++ [.installDependencies] }
      else
        handleFailure env fs3 tr4 "install failed"

/-- The `init` command action: validate that the target directory exists,
that it has a `package.json`, and that `react` or `next` is declared
(each failure is a direct `process.exit(1)`, reached before the `try`
block's fallible work, so no cleanup runs); then
`promptForProjectDetails` followed by `runInit`, with every thrown error
landing in the `catch` block (`handleFailure`). -/
def init (env : Env) : RunResult :=
  let cwd := env.cwd
  let fs := env.fs0
  if !fs.pathExists cwd then
    { outcome := .exited 1, fs := fs, trace := [] }
  else if !fs.pathExists (pathResolve cwd "package.json") then
    { outcome := .exited 1, fs := fs, trace := [.validateTarget] }
  else if !checkPackageExists "react" env && !checkPackageExists "next" env then
    { outcome := .exited 1, fs := fs,
      trace := [.validateTarget, .validatePackageJson] }
  else
    let tr0 : List Event :=
      [.validateTarget, .validatePackageJson, .validateFramework]
    match promptForProjectDetails env fs with
    | .threw msg fs' tr => handleFailure env fs' (tr0 ++ tr) msg
    | .exitZero fs' tr =>
      { outcome := .exited 0, fs := fs', trace := tr0 ++ tr }
    | .ok _raw cfg fs' tr => runInit env fs' (tr0 ++ tr) cfg

/-! ## Basic lemmas about the filesystem model -/

theorem FS.readAt_write_self (fs : FS) (p : String) (d : FileData) :
    (fs.write p d).readAt p = some d := by
  simp [FS.write, FS.readAt]

theorem FS.readAt_write_ne (fs : FS) (p q : String) (d : FileData)
    (h : q ≠ p) : (fs.write q d).readAt p = fs.readAt p := by
  simp [FS.write, FS.readAt, h]

theorem FS.pathExists_write_self (fs : FS) (p : String) (d : FileData) :
    (fs.write p d).pathExists p = true := by
  simp [FS.pathExists, FS.readAt_write_self]

theorem FS.readAt_unlink_self (fs : FS) (p : String) :
    (fs.unlink p).readAt p = none := by
  induction fs with
  | nil => rfl
  | cons e rest ih =>
    by_cases h : e.1 = p
    · simpa [FS.unlink, List.filter, h] using ih
    · simpa [FS.unlink, List.filter, h, FS.readAt] using ih

theorem FS.pathExists_unlink_self (fs : FS) (p : String) :
    (fs.unlink p).pathExists p = false := by
  simp [FS.pathExists, FS.readAt_unlink_self]

/-- JSON round-trip: parsing the value serialised for the config file yields
the original configuration unchanged. -/
theorem decodeConfig_encodeConfig (c : ProjectConfig) :
    decodeConfig (encodeConfig c) = some c := rfl

/-- The error handler leaves no config file behind. -/
theorem handleFailure_pathExists (env : Env) (fs : FS) (tr : List Event)
    (msg : String) :
    (handleFailure env fs tr msg).fs.pathExists
      (pathResolve env.cwd configFileName) = false := by
  unfold handleFailure
  by_cases h : fs.pathExists (pathResolve env.cwd configFileName) = true
  · simp [h, FS.pathExists_unlink_self]
  · simp only [Bool.not_eq_true] at h
    simp [h]

/-- The error handler always exits with code 1. -/
theorem handleFailure_outcome (env : Env) (fs : FS) (tr : List Event)
    (msg : String) : (handleFailure env fs tr msg).outcome = .exited 1 := by
  unfold handleFailure
  by_cases h : fs.pathExists (pathResolve env.cwd configFileName) = true
  · simp [h]
  · simp only [Bool.not_eq_true] at h
    simp [h]

/-- The error handler's trace: the prior trace, the report, and the unlink
when a config file was present. -/
theorem handleFailure_trace (env : Env) (fs : FS) (tr : List Event)
    (msg : String) :
    (handleFailure env fs tr msg).trace =
      tr ++ [.handleErrorEv msg] ++
        (if fs.pathExists (pathResolve env.cwd configFileName) then
          [.unlinkConfig] else []) := by
  unfold handleFailure
  by_cases h : fs.pathExists (pathResolve env.cwd configFileName) = true
  · simp [h]
  · simp only [Bool.not_eq_true] at h
    simp [h]

/-! ## Sample environments -/

/-- A two-theme catalog for concrete runs. -/
def sampleThemes : List Theme :=
  [⟨"clean-slate", "Clean Slate"⟩, ⟨"midnight", "Midnight"⟩]

/-- A world in which every step of `init` succeeds: valid target with a
manifest declaring `react`, reachable remote service, an operator who
accepts every prompt, resolvable aliases, and a clean install. -/
def sampleEnv : Env where
  cwd := "/home/user/app"
  fs0 := [("/home/user/app", .dir), ("/home/user/app/package.json", .text "{}")]
  declaredDeps := ["react", "commander"]
  themes := .ok sampleThemes
  themeAnswer := some 1
  cssAnswer := some defaultGlobalCSS
  componentsAnswer := some defaultComponentsAlias
  proceedAnswer := some true
  resolveComponents := fun a => "/home/user/app/components/" ++ a
  resolveCss := fun p => "/home/user/app/" ++ p
  initData := .ok ⟨"body { margin: 0; }", ["clsx", "tailwind-merge"]⟩
  packageManager := "npm"
  installOk := true

example : (init sampleEnv).outcome = .exited 0 := rfl

example : (init sampleEnv).fs.readAt "/home/user/app/app/globals.css" =
    some (.text "body { margin: 0; }") := rfl

example : (init sampleEnv).trace.filter Event.isSpawn =
    [.spawn "npm" ["install", "clsx", "tailwind-merge"] true] := rfl

/-! ## Characterisations of the prompt phase -/

/-- Cancelling the theme, CSS, or components prompt throws the `onCancel`
error without touching the filesystem. -/
theorem promptForProjectDetails_cancel (env : Env) (fs : FS) (ts : List Theme)
    (hthemes : env.themes = .ok ts)
    (hc : env.themeAnswer = none ∨ env.cssAnswer = none ∨
      env.componentsAnswer = none) :
    promptForProjectDetails env fs = .threw cancelMessage fs [.fetchThemes] := by
  unfold promptForProjectDetails
  rw [hthemes]
  rcases hc with h | h | h
  · simp [h]
  · cases hta : env.themeAnswer with
    | none => simp
    | some i =>
      cases hti : ts[i]? with
      | none => simp [hti]
      | some t => simp [hti, h]
  · cases hta : env.themeAnswer with
    | none => simp
    | some i =>
      cases hti : ts[i]? with
      | none => simp [hti]
      | some t =>
        cases hcss : env.cssAnswer with
        | none => simp [hti, hcss]
        | some css => simp [hti, hcss, h]

/-- When both resolved paths come back empty-free and the operator confirms,
the prompt phase writes the config file and returns the resolved config. -/
theorem promptForProjectDetails_ok (env : Env) (fs : FS) (ts : List Theme)
    (i : Nat) (t : Theme) (css comps : String)
    (hthemes : env.themes = .ok ts)
    (hi : env.themeAnswer = some i) (ht : ts[i]? = some t)
    (hcss : env.cssAnswer = some css)
    (hcomps : env.componentsAnswer = some comps)
    (hrc : env.resolveComponents comps ≠ "")
    (hrs : env.resolveCss css ≠ "")
    (hyes : env.proceedAnswer = some true) :
    promptForProjectDetails env fs =
      .ok ⟨⟨t.id, css⟩, ⟨comps⟩⟩
        (resolveConfigPaths env ⟨⟨t.id, css⟩, ⟨comps⟩⟩)
        (fs.write (pathResolve env.cwd configFileName)
          (.jsonFile (encodeConfig ⟨⟨t.id, css⟩, ⟨comps⟩⟩)))
        [.fetchThemes, .promptAndResolve, .confirmPrompt, .persistConfig] := by
  unfold promptForProjectDetails
  rw [hthemes, hi]
  simp [ht, hcss, hcomps, hyes, resolveConfigPaths, hrc, hrs]

/-- Declining (or cancelling) the final confirmation takes the
`process.exit(0)` branch: nothing is written. -/
theorem promptForProjectDetails_declined (env : Env) (fs : FS) (ts : List Theme)
    (i : Nat) (t : Theme) (css comps : String)
    (hthemes : env.themes = .ok ts)
    (hi : env.themeAnswer = some i) (ht : ts[i]? = some t)
    (hcss : env.cssAnswer = some css)
    (hcomps : env.componentsAnswer = some comps)
    (hrc : env.resolveComponents comps ≠ "")
    (hrs : env.resolveCss css ≠ "")
    (hno : env.proceedAnswer = some false ∨ env.proceedAnswer = none) :
    promptForProjectDetails env fs =
      .exitZero fs [.fetchThemes, .promptAndResolve, .confirmPrompt] := by
  unfold promptForProjectDetails
  rw [hthemes, hi]
  rcases hno with h | h <;>
    simp [ht, hcss, hcomps, h, resolveConfigPaths, hrc, hrs]

/-- An empty resolved path makes the prompt phase throw before the
confirmation prompt, with nothing written. -/
theorem promptForProjectDetails_resolveFail (env : Env) (fs : FS)
    (ts : List Theme) (i : Nat) (t : Theme) (css comps : String)
    (hthemes : env.themes = .ok ts)
    (hi : env.themeAnswer = some i) (ht : ts[i]? = some t)
    (hcss : env.cssAnswer = some css)
    (hcomps : env.componentsAnswer = some comps)
    (hres : env.resolveComponents comps = "" ∨ env.resolveCss css = "") :
    promptForProjectDetails env fs = .threw resolveFailMessage fs [.fetchThemes] := by
  unfold promptForProjectDetails
  rw [hthemes, hi]
  rcases hres with h | h <;> simp [ht, hcss, hcomps, resolveConfigPaths, h]

/-- After the three validations pass, `init` is the prompt phase followed by
`runInit`, with failures routed to the error handler. -/
theorem init_valid_eq (env : Env)
    (hcwd : env.fs0.pathExists env.cwd = true)
    (hpkg : env.fs0.pathExists (pathResolve env.cwd "package.json") = true)
    (hfw : checkPackageExists "react" env = true ∨
      checkPackageExists "next" env = true) :
    init env =
      match promptForProjectDetails env env.fs0 with
      | .threw msg fs' tr =>
        handleFailure env fs'
          ([.validateTarget, .validatePackageJson, .validateFramework] ++ tr) msg
      | .exitZero fs' tr =>
        { outcome := .exited 0, fs := fs',
          trace := [.validateTarget, .validatePackageJson, .validateFramework] ++ tr }
      | .ok _raw cfg fs' tr =>
        runInit env fs'
          ([.validateTarget, .validatePackageJson, .validateFramework] ++ tr) cfg := by
  unfold init
  have hcond : (!checkPackageExists "react" env &&
      !checkPackageExists "next" env) = false := by
    rcases hfw with h | h <;> simp [h]
  simp [hcwd, hpkg, hcond]

/-- The function `runInit` only extends the trace it is given. -/
theorem runInit_mem_trace (env : Env) (fs : FS) (tr : List Event)
    (cfg : Config) (e : Event) (he : e ∈ tr) :
    e ∈ (runInit env fs tr cfg).trace := by
  unfold runInit
  cases hd : env.initData with
  | error msg => simp [handleFailure_trace, he]
  | ok payload =>
    by_cases hdep : payload.dependencies.isEmpty = true <;>
      by_cases hio : env.installOk = true <;>
        simp [hdep, hio, handleFailure_trace, he]

/-- After validation, every exit with code 1 goes through the error handler,
so no config file remains. -/
theorem runInit_exit1_no_config (env : Env) (fs : FS) (tr : List Event)
    (cfg : Config) :
    (runInit env fs tr cfg).outcome = .exited 1 →
    (runInit env fs tr cfg).fs.pathExists
      (pathResolve env.cwd configFileName) = false := by
  unfold runInit
  cases hd : env.initData with
  | error msg => intro _; exact handleFailure_pathExists ..
  | ok payload =>
    by_cases hdep : payload.dependencies.isEmpty = true <;>
      by_cases hio : env.installOk = true <;>
        simp [hdep, hio, handleFailure_pathExists]

/-- Once the three validations pass, the `validateFramework` step is on the
trace whatever happens later. -/
theorem validateFramework_mem_of_valid (env : Env)
    (hcwd : env.fs0.pathExists env.cwd = true)
    (hpkg : env.fs0.pathExists (pathResolve env.cwd "package.json") = true)
    (hfw : checkPackageExists "react" env = true ∨
      checkPackageExists "next" env = true) :
    Event.validateFramework ∈ (init env).trace := by
  rw [init_valid_eq env hcwd hpkg hfw]
  cases hp : promptForProjectDetails env env.fs0 with
  | threw msg fs' tr => simp [handleFailure_trace]
  | exitZero fs' tr => simp
  | ok raw cfg fs' tr => exact runInit_mem_trace env fs' _ cfg _ (by simp)

/-! ## The claims -/

/-- C5: A target directory without a `package.json` at its root makes
`init` exit non-zero with the filesystem untouched (no config file written)
and nothing beyond the target-existence check performed: no prompt, no
remote fetch, no write, no install. -/
theorem init_missing_manifest (env : Env)
    (hcwd : env.fs0.pathExists env.cwd = true)
    (hpkg : env.fs0.pathExists (pathResolve env.cwd "package.json") = false) :
    init env = { outcome := .exited 1, fs := env.fs0,
                 trace := [.validateTarget] } := by
  unfold init
  simp [hcwd, hpkg]

/-- A world whose target directory exists but holds no `package.json`. -/
def envNoManifest : Env :=
  { sampleEnv with fs0 := [("/home/user/app", .dir)] }

/-- Witness for C5 at a concrete world. -/
theorem init_missing_manifest_witness :
    init envNoManifest = { outcome := .exited 1, fs := envNoManifest.fs0,
                           trace := [.validateTarget] } :=
  init_missing_manifest envNoManifest rfl rfl

/-- C9: With an existing target and manifest, the framework validation
step succeeds exactly when `react` or `next` is declared in the manifest;
when neither is, `init` exits non-zero right after the manifest check, with
the filesystem untouched and no prompt on the trace. -/
theorem init_framework_validation (env : Env)
    (hcwd : env.fs0.pathExists env.cwd = true)
    (hpkg : env.fs0.pathExists (pathResolve env.cwd "package.json") = true) :
    (Event.validateFramework ∈ (init env).trace ↔
      (checkPackageExists "react" env = true ∨
        checkPackageExists "next" env = true))
    ∧ (checkPackageExists "react" env = false →
        checkPackageExists "next" env = false →
        init env = { outcome := .exited 1, fs := env.fs0,
                     trace := [.validateTarget, .validatePackageJson] }) := by
  have hfail : checkPackageExists "react" env = false →
      checkPackageExists "next" env = false →
      init env = { outcome := .exited 1, fs := env.fs0,
                   trace := [.validateTarget, .validatePackageJson] } := by
    intro h1 h2
    unfold init
    simp [hcwd, hpkg, h1, h2]
  refine ⟨⟨?_, ?_⟩, hfail⟩
  · intro hmem
    by_contra hnot
    simp only [not_or, Bool.not_eq_true] at hnot
    rw [hfail hnot.1 hnot.2] at hmem
    simp at hmem
  · intro hfw
    exact validateFramework_mem_of_valid env hcwd hpkg hfw

/-- A world whose manifest declares neither `react` nor `next`. -/
def envNoFramework : Env :=
  { sampleEnv with declaredDeps := ["vue", "commander"] }

/-- Witness for C9 at a concrete world: with no supported framework
declared, the run stops after the manifest check. -/
theorem init_framework_validation_witness :
    init envNoFramework = { outcome := .exited 1, fs := envNoFramework.fs0,
                            trace := [.validateTarget, .validatePackageJson] } :=
  (init_framework_validation envNoFramework rfl rfl).2 rfl rfl

/-- A stale configuration left behind by some earlier run. -/
def staleConfig : Json := encodeConfig ⟨⟨"old-theme", "old.css"⟩, ⟨"@/old"⟩⟩

/-- A world with a pre-existing `getatomic.components.json` in the target
directory and an unreachable theme service: the run fails after validation
without ever writing a config file itself. -/
def envStaleConfig : Env :=
  { sampleEnv with
      fs0 := ("/home/user/app/getatomic.components.json",
        .jsonFile staleConfig) :: sampleEnv.fs0,
      themes := .error "request to themes endpoint failed" }

/-- C3 counterexample: A `getatomic.components.json` that already
existed before the failing run started is not left unchanged: the error
handler deletes it, even though this run never wrote a config file. -/
theorem init_preexisting_config_deleted_cex :
    envStaleConfig.fs0.pathExists
      (pathResolve envStaleConfig.cwd configFileName) = true
    ∧ (init envStaleConfig).outcome = .exited 1
    ∧ (init envStaleConfig).fs.readAt
        (pathResolve envStaleConfig.cwd configFileName) = none :=
  ⟨rfl, rfl, rfl⟩

/-- C3 amended: On any pipeline failure after the three validations
(exit code 1), the error handler deletes whatever `getatomic.components.json`
is present at the target root — one written by this run or one that already
existed — so that no config file remains afterward. -/
theorem init_post_validation_failure_deletes_config (env : Env)
    (hcwd : env.fs0.pathExists env.cwd = true)
    (hpkg : env.fs0.pathExists (pathResolve env.cwd "package.json") = true)
    (hfw : checkPackageExists "react" env = true ∨
      checkPackageExists "next" env = true) :
    (init env).outcome = .exited 1 →
    (init env).fs.pathExists (pathResolve env.cwd configFileName) = false := by
  rw [init_valid_eq env hcwd hpkg hfw]
  cases hp : promptForProjectDetails env env.fs0 with
  | threw msg fs' tr => intro _; exact handleFailure_pathExists ..
  | exitZero fs' tr => intro h; simp at h
  | ok raw cfg fs' tr => exact runInit_exit1_no_config env fs' _ cfg

/-- Witness for the amended C3: at the concrete world with a stale config
and a failing theme fetch, no config file remains after the failure. -/
theorem init_post_validation_failure_deletes_config_witness :
    (init envStaleConfig).fs.pathExists
      (pathResolve envStaleConfig.cwd configFileName) = false :=
  init_post_validation_failure_deletes_config envStaleConfig rfl rfl
    (Or.inl rfl) rfl

/-- C4: Declining the final confirmation exits with code 0 and leaves
the filesystem exactly as it was: no config file is written. -/
theorem init_decline_confirmation (env : Env) (ts : List Theme) (i : Nat)
    (t : Theme) (css comps : String)
    (hcwd : env.fs0.pathExists env.cwd = true)
    (hpkg : env.fs0.pathExists (pathResolve env.cwd "package.json") = true)
    (hfw : checkPackageExists "react" env = true ∨
      checkPackageExists "next" env = true)
    (hthemes : env.themes = .ok ts)
    (hi : env.themeAnswer = some i) (ht : ts[i]? = some t)
    (hcss : env.cssAnswer = some css)
    (hcomps : env.componentsAnswer = some comps)
    (hrc : env.resolveComponents comps ≠ "")
    (hrs : env.resolveCss css ≠ "")
    (hno : env.proceedAnswer = some false) :
    init env = { outcome := .exited 0, fs := env.fs0,
                 trace := [.validateTarget, .validatePackageJson,
                   .validateFramework, .fetchThemes, .promptAndResolve,
                   .confirmPrompt] } := by
  rw [init_valid_eq env hcwd hpkg hfw,
    promptForProjectDetails_declined env env.fs0 ts i t css comps hthemes hi
      ht hcss hcomps hrc hrs (Or.inl hno)]
  rfl

/-- A world where the operator answers "no" at the final confirmation. -/
def envDecline : Env := { sampleEnv with proceedAnswer := some false }

/-- Witness for C4 at a concrete world. -/
theorem init_decline_confirmation_witness :
    init envDecline = { outcome := .exited 0, fs := envDecline.fs0,
                        trace := [.validateTarget, .validatePackageJson,
                          .validateFramework, .fetchThemes, .promptAndResolve,
                          .confirmPrompt] } :=
  init_decline_confirmation envDecline sampleThemes 1 ⟨"midnight", "Midnight"⟩
    defaultGlobalCSS defaultComponentsAlias rfl rfl (Or.inl rfl) rfl rfl rfl
    rfl rfl (by decide) (by decide) rfl

/-- A world where the operator cancels the final confirmation prompt, with a
config file already on disk from an earlier run. -/
def envCancelConfirm : Env :=
  { sampleEnv with
      fs0 := ("/home/user/app/getatomic.components.json",
        .jsonFile staleConfig) :: sampleEnv.fs0,
      proceedAnswer := none }

/-- C2 counterexample: Cancelling the final confirmation prompt does
not abort with a terminal error: the confirm call has no `onCancel` handler,
so the run takes the `process.exit(0)` branch (exit code 0, no error-handler
event on the trace), and a config file still exists on disk afterwards. -/
theorem init_cancel_confirm_cex :
    envCancelConfirm.proceedAnswer = none
    ∧ (init envCancelConfirm).outcome = .exited 0
    ∧ ((init envCancelConfirm).trace.filter
        (fun e => match e with | .handleErrorEv _ => true | _ => false) = [])
    ∧ (init envCancelConfirm).fs.pathExists
        (pathResolve envCancelConfirm.cwd configFileName) = true :=
  ⟨rfl, rfl, rfl, rfl⟩

/-- C2 amended: Cancelling the theme, stylesheet-path, or import-alias
prompt aborts the flow with the terminal `onCancel` error (exit code 1,
error handler on the trace) and no config file exists on disk afterward;
cancelling the final confirmation instead exits with code 0 and leaves the
filesystem untouched (nothing written, but a pre-existing config file
remains). -/
theorem init_cancellation (env : Env) (ts : List Theme)
    (hcwd : env.fs0.pathExists env.cwd = true)
    (hpkg : env.fs0.pathExists (pathResolve env.cwd "package.json") = true)
    (hfw : checkPackageExists "react" env = true ∨
      checkPackageExists "next" env = true)
    (hthemes : env.themes = .ok ts) :
    ((env.themeAnswer = none ∨ env.cssAnswer = none ∨
        env.componentsAnswer = none) →
      (init env).outcome = .exited 1
      ∧ (init env).fs.pathExists (pathResolve env.cwd configFileName) = false
      ∧ Event.handleErrorEv cancelMessage ∈ (init env).trace)
    ∧ (∀ i t css comps, env.themeAnswer = some i → ts[i]? = some t →
        env.cssAnswer = some css → env.componentsAnswer = some comps →
        env.resolveComponents comps ≠ "" → env.resolveCss css ≠ "" →
        env.proceedAnswer = none →
        init env = { outcome := .exited 0, fs := env.fs0,
                     trace := [.validateTarget, .validatePackageJson,
                       .validateFramework, .fetchThemes, .promptAndResolve,
                       .confirmPrompt] }) := by
  constructor
  · intro hc
    rw [init_valid_eq env hcwd hpkg hfw,
      promptForProjectDetails_cancel env env.fs0 ts hthemes hc]
    refine ⟨handleFailure_outcome .., handleFailure_pathExists .., ?_⟩
    rw [handleFailure_trace]
    simp
  · intro i t css comps hi ht hcss hcomps hrc hrs hnone
    rw [init_valid_eq env hcwd hpkg hfw,
      promptForProjectDetails_declined env env.fs0 ts i t css comps hthemes
        hi ht hcss hcomps hrc hrs (Or.inr hnone)]
    rfl

/-- A world where the operator cancels at the stylesheet-path prompt. -/
def envCancelCss : Env := { sampleEnv with cssAnswer := none }

/-- Witness for the amended C2: cancelling the stylesheet prompt at a
concrete world ends with exit code 1, no config file, and the terminal
error reported. -/
theorem init_cancellation_witness :
    (init envCancelCss).outcome = .exited 1
    ∧ (init envCancelCss).fs.pathExists
        (pathResolve envCancelCss.cwd configFileName) = false
    ∧ Event.handleErrorEv cancelMessage ∈ (init envCancelCss).trace :=
  (init_cancellation envCancelCss sampleThemes rfl rfl (Or.inl rfl) rfl).1
    (Or.inr (Or.inl rfl))

/-- The error report is always on the handler's trace. -/
theorem handleFailure_mem_report (env : Env) (fs : FS) (tr : List Event)
    (msg : String) :
    Event.handleErrorEv msg ∈ (handleFailure env fs tr msg).trace := by
  rw [handleFailure_trace]
  by_cases h : fs.pathExists (pathResolve env.cwd configFileName) = true <;>
    simp [h]

/-- The handler adds nothing to the trace beyond the report and the unlink. -/
theorem handleFailure_not_mem (env : Env) (fs : FS) (tr : List Event)
    (msg : String) (e : Event) (h1 : e ∉ tr)
    (h2 : e ≠ .handleErrorEv msg) (h3 : e ≠ .unlinkConfig) :
    e ∉ (handleFailure env fs tr msg).trace := by
  rw [handleFailure_trace]
  by_cases h : fs.pathExists (pathResolve env.cwd configFileName) = true <;>
    simp [h, h1, h2, h3]

/-- The handler spawns nothing. -/
theorem handleFailure_filter_isSpawn (env : Env) (fs : FS) (tr : List Event)
    (msg : String) :
    (handleFailure env fs tr msg).trace.filter Event.isSpawn =
      tr.filter Event.isSpawn := by
  rw [handleFailure_trace]
  by_cases h : fs.pathExists (pathResolve env.cwd configFileName) = true <;>
    simp [h, Event.isSpawn]

/-- C6: When path resolution yields an empty string for either resolved
path, `init` fails with exit code 1 reporting the resolution error, before
the confirmation prompt, before persisting the config, before writing the
stylesheet, and before spawning any install subprocess. -/
theorem init_empty_resolved_path (env : Env) (ts : List Theme) (i : Nat)
    (t : Theme) (css comps : String)
    (hcwd : env.fs0.pathExists env.cwd = true)
    (hpkg : env.fs0.pathExists (pathResolve env.cwd "package.json") = true)
    (hfw : checkPackageExists "react" env = true ∨
      checkPackageExists "next" env = true)
    (hthemes : env.themes = .ok ts)
    (hi : env.themeAnswer = some i) (ht : ts[i]? = some t)
    (hcss : env.cssAnswer = some css)
    (hcomps : env.componentsAnswer = some comps)
    (hres : env.resolveComponents comps = "" ∨ env.resolveCss css = "") :
    (init env).outcome = .exited 1
    ∧ Event.handleErrorEv resolveFailMessage ∈ (init env).trace
    ∧ Event.confirmPrompt ∉ (init env).trace
    ∧ Event.persistConfig ∉ (init env).trace
    ∧ Event.writeStylesheet ∉ (init env).trace
    ∧ (∀ pm args io, Event.spawn pm args io ∉ (init env).trace)
    ∧ Event.installDependencies ∉ (init env).trace := by
  rw [init_valid_eq env hcwd hpkg hfw,
    promptForProjectDetails_resolveFail env env.fs0 ts i t css comps hthemes
      hi ht hcss hcomps hres]
  refine ⟨handleFailure_outcome .., handleFailure_mem_report ..,
    handleFailure_not_mem _ _ _ _ _ (by simp) (by simp) (by simp),
    handleFailure_not_mem _ _ _ _ _ (by simp) (by simp) (by simp),
    handleFailure_not_mem _ _ _ _ _ (by simp) (by simp) (by simp),
    fun pm args io =>
      handleFailure_not_mem _ _ _ _ _ (by simp) (by simp) (by simp),
    handleFailure_not_mem _ _ _ _ _ (by simp) (by simp) (by simp)⟩

/-- A world whose project declares no alias mapping for the entered
components alias, so resolution yields the empty string. -/
def envBadAlias : Env :=
  { sampleEnv with resolveComponents := fun _ => "" }

/-- Witness for C6 at a concrete world. -/
theorem init_empty_resolved_path_witness :
    (init envBadAlias).outcome = .exited 1
    ∧ Event.handleErrorEv resolveFailMessage ∈ (init envBadAlias).trace
    ∧ Event.confirmPrompt ∉ (init envBadAlias).trace
    ∧ Event.persistConfig ∉ (init envBadAlias).trace
    ∧ Event.writeStylesheet ∉ (init envBadAlias).trace
    ∧ (∀ pm args io, Event.spawn pm args io ∉ (init envBadAlias).trace)
    ∧ Event.installDependencies ∉ (init envBadAlias).trace :=
  init_empty_resolved_path envBadAlias sampleThemes 1 ⟨"midnight", "Midnight"⟩
    defaultGlobalCSS defaultComponentsAlias rfl rfl (Or.inl rfl) rfl rfl rfl
    rfl rfl (Or.inl rfl)

/-- C7: On a successful run the pipeline's steps happen in exactly the
spec's linear order: validate target, validate manifest, validate framework,
prompt-and-resolve, persist config, ensure components directory, fetch init
payload, write stylesheet, install dependencies — in particular the config
file is persisted before the components directory is created, the payload is
fetched after config persistence, and the stylesheet is written before
installation. -/
theorem init_pipeline_order (env : Env) (ts : List Theme) (i : Nat)
    (t : Theme) (css comps : String) (payload : InitPayload)
    (hcwd : env.fs0.pathExists env.cwd = true)
    (hpkg : env.fs0.pathExists (pathResolve env.cwd "package.json") = true)
    (hfw : checkPackageExists "react" env = true ∨
      checkPackageExists "next" env = true)
    (hthemes : env.themes = .ok ts)
    (hi : env.themeAnswer = some i) (ht : ts[i]? = some t)
    (hcss : env.cssAnswer = some css)
    (hcomps : env.componentsAnswer = some comps)
    (hrc : env.resolveComponents comps ≠ "")
    (hrs : env.resolveCss css ≠ "")
    (hyes : env.proceedAnswer = some true)
    (hdata : env.initData = .ok payload)
    (hsucc : payload.dependencies = [] ∨ env.installOk = true) :
    (init env).trace.filter Event.isStep =
      [.validateTarget, .validatePackageJson, .validateFramework,
       .promptAndResolve, .persistConfig, .ensureComponentsDir,
       .fetchInitPayload, .writeStylesheet, .installDependencies] := by
  rw [init_valid_eq env hcwd hpkg hfw,
    promptForProjectDetails_ok env env.fs0 ts i t css comps hthemes hi ht
      hcss hcomps hrc hrs hyes]
  dsimp only
  unfold runInit
  rw [hdata]
  rcases hsucc with h | h
  · simp [h, Event.isStep]
  · by_cases hdep : payload.dependencies.isEmpty = true <;>
      simp [hdep, h, Event.isStep]

/-- Witness for C7 at a concrete world. -/
theorem init_pipeline_order_witness :
    (init sampleEnv).trace.filter Event.isStep =
      [.validateTarget, .validatePackageJson, .validateFramework,
       .promptAndResolve, .persistConfig, .ensureComponentsDir,
       .fetchInitPayload, .writeStylesheet, .installDependencies] :=
  init_pipeline_order sampleEnv sampleThemes 1 ⟨"midnight", "Midnight"⟩
    defaultGlobalCSS defaultComponentsAlias
    ⟨"body { margin: 0; }", ["clsx", "tailwind-merge"]⟩ rfl rfl (Or.inl rfl)
    rfl rfl rfl rfl rfl (by decide) (by decide) rfl rfl (Or.inr rfl)

/-- C8: Once the run reaches the install step: an empty fetched
dependency list spawns no subprocess (the no-op is logged) and the run
succeeds; a non-empty list spawns exactly one subprocess — the detected
package manager with its install verb (`install` for npm, `add` otherwise)
followed by the dependency list, inheriting standard I/O — and the run's
final outcome is success exactly when that subprocess exits zero (the
orchestrator waits on it). -/
theorem init_install_dependencies (env : Env) (ts : List Theme) (i : Nat)
    (t : Theme) (css comps : String) (payload : InitPayload)
    (hcwd : env.fs0.pathExists env.cwd = true)
    (hpkg : env.fs0.pathExists (pathResolve env.cwd "package.json") = true)
    (hfw : checkPackageExists "react" env = true ∨
      checkPackageExists "next" env = true)
    (hthemes : env.themes = .ok ts)
    (hi : env.themeAnswer = some i) (ht : ts[i]? = some t)
    (hcss : env.cssAnswer = some css)
    (hcomps : env.componentsAnswer = some comps)
    (hrc : env.resolveComponents comps ≠ "")
    (hrs : env.resolveCss css ≠ "")
    (hyes : env.proceedAnswer = some true)
    (hdata : env.initData = .ok payload) :
    (payload.dependencies = [] →
      (init env).trace.filter Event.isSpawn = []
      ∧ Event.logNoDeps ∈ (init env).trace
      ∧ (init env).outcome = .exited 0)
    ∧ (payload.dependencies ≠ [] →
      (init env).trace.filter Event.isSpawn =
        [.spawn env.packageManager
          ((if env.packageManager = "npm" then "install" else "add") ::
            payload.dependencies) true]
      ∧ ((init env).outcome = .exited 0 ↔ env.installOk = true)) := by
  rw [init_valid_eq env hcwd hpkg hfw,
    promptForProjectDetails_ok env env.fs0 ts i t css comps hthemes hi ht
      hcss hcomps hrc hrs hyes]
  dsimp only
  unfold runInit
  rw [hdata]
  constructor
  · intro h
    simp [h, Event.isSpawn]
  · intro h
    have hdep : payload.dependencies.isEmpty = false := by
      simpa [List.isEmpty_iff] using h
    by_cases hio : env.installOk = true
    · simp [hdep, hio, Event.isSpawn]
    · simp only [Bool.not_eq_true] at hio
      simp [hdep, hio, handleFailure_filter_isSpawn, handleFailure_outcome,
        Event.isSpawn]

/-- A world identical to `sampleEnv` except that the fetched dependency list
is empty. -/
def envNoDeps : Env :=
  { sampleEnv with initData := .ok ⟨"body { margin: 0; }", []⟩ }

/-- Witness for C8 at a concrete world: with an empty dependency list no
subprocess is spawned and the no-op is logged. -/
theorem init_install_dependencies_witness :
    (init envNoDeps).trace.filter Event.isSpawn = []
    ∧ Event.logNoDeps ∈ (init envNoDeps).trace
    ∧ (init envNoDeps).outcome = .exited 0 :=
  (init_install_dependencies envNoDeps sampleThemes 1 ⟨"midnight", "Midnight"⟩
    defaultGlobalCSS defaultComponentsAlias ⟨"body { margin: 0; }", []⟩ rfl
    rfl (Or.inl rfl) rfl rfl rfl rfl rfl (by decide) (by decide) rfl rfl).1 rfl

/-- On a run that does not fail after the stylesheet step, `runInit`'s final
filesystem is the input plus the directory creations and the stylesheet
write. -/
theorem runInit_success_fs_eq (env : Env) (fs : FS) (tr : List Event)
    (cfg : Config) (payload : InitPayload)
    (hdata : env.initData = .ok payload)
    (hsucc : payload.dependencies.isEmpty = true ∨ env.installOk = true) :
    (runInit env fs tr cfg).fs =
      (let fs1 := if fs.pathExists cfg.resolvedPaths.components then fs
        else fs.write cfg.resolvedPaths.components .dir
       let fs2 := if fs1.pathExists cfg.resolvedPaths.css then fs1
        else fs1.write (dirname cfg.resolvedPaths.css) .dir
       fs2.write cfg.resolvedPaths.css (.text payload.css)) := by
  unfold runInit
  rw [hdata]
  rcases hsucc with h | h
  · simp [h]
  · by_cases hdep : payload.dependencies.isEmpty = true <;> simp [hdep, h]

/-- On such a run the stylesheet file ends up holding exactly the fetched
`css` text. -/
theorem runInit_success_css (env : Env) (fs : FS) (tr : List Event)
    (cfg : Config) (payload : InitPayload)
    (hdata : env.initData = .ok payload)
    (hsucc : payload.dependencies.isEmpty = true ∨ env.installOk = true) :
    (runInit env fs tr cfg).fs.readAt cfg.resolvedPaths.css =
      some (.text payload.css) := by
  rw [runInit_success_fs_eq env fs tr cfg payload hdata hsucc]
  exact FS.readAt_write_self ..

/-- Frame property of a successful `runInit`: a path that already exists and
is neither the stylesheet path nor its parent directory keeps its content. -/
theorem runInit_success_frame (env : Env) (fs : FS) (tr : List Event)
    (cfg : Config) (payload : InitPayload) (p : String)
    (hdata : env.initData = .ok payload)
    (hsucc : payload.dependencies.isEmpty = true ∨ env.installOk = true)
    (h1 : p ≠ cfg.resolvedPaths.css)
    (h2 : p ≠ dirname cfg.resolvedPaths.css)
    (hp : fs.pathExists p = true) :
    (runInit env fs tr cfg).fs.readAt p = fs.readAt p := by
  rw [runInit_success_fs_eq env fs tr cfg payload hdata hsucc]
  dsimp only
  by_cases hc1 : fs.pathExists cfg.resolvedPaths.components = true
  · rw [if_pos hc1]
    by_cases hc2 : fs.pathExists cfg.resolvedPaths.css = true
    · rw [if_pos hc2, FS.readAt_write_ne _ _ _ _ (Ne.symm h1)]
    · rw [if_neg hc2, FS.readAt_write_ne _ _ _ _ (Ne.symm h1),
        FS.readAt_write_ne _ _ _ _ (Ne.symm h2)]
  · rw [if_neg hc1]
    have hcomp : cfg.resolvedPaths.components ≠ p := by
      intro he
      rw [he, hp] at hc1
      exact hc1 rfl
    by_cases hc2 : (fs.write cfg.resolvedPaths.components .dir).pathExists
        cfg.resolvedPaths.css = true
    · rw [if_pos hc2, FS.readAt_write_ne _ _ _ _ (Ne.symm h1),
        FS.readAt_write_ne _ _ _ _ hcomp]
    · rw [if_neg hc2, FS.readAt_write_ne _ _ _ _ (Ne.symm h1),
        FS.readAt_write_ne _ _ _ _ (Ne.symm h2),
        FS.readAt_write_ne _ _ _ _ hcomp]

/-- C1: On a successful run with a non-empty dependency list (and a
stylesheet path distinct from the config path and not its parent), the file
at the resolved CSS path contains exactly the fetched `css` string, the
persisted `getatomic.components.json` holds exactly the JSON encoding of the
configuration assembled from the prompts, and parsing it back yields exactly
the theme name, css path and components alias entered. -/
theorem init_success_roundtrip (env : Env) (ts : List Theme) (i : Nat)
    (t : Theme) (css comps : String) (payload : InitPayload)
    (hcwd : env.fs0.pathExists env.cwd = true)
    (hpkg : env.fs0.pathExists (pathResolve env.cwd "package.json") = true)
    (hfw : checkPackageExists "react" env = true ∨
      checkPackageExists "next" env = true)
    (hthemes : env.themes = .ok ts)
    (hi : env.themeAnswer = some i) (ht : ts[i]? = some t)
    (hcss : env.cssAnswer = some css)
    (hcomps : env.componentsAnswer = some comps)
    (hrc : env.resolveComponents comps ≠ "")
    (hrs : env.resolveCss css ≠ "")
    (hyes : env.proceedAnswer = some true)
    (hdata : env.initData = .ok payload)
    (hdeps : payload.dependencies ≠ [])
    (hinst : env.installOk = true)
    (hne1 : env.resolveCss css ≠ pathResolve env.cwd configFileName)
    (hne2 : dirname (env.resolveCss css) ≠ pathResolve env.cwd configFileName) :
    (init env).outcome = .exited 0
    ∧ (init env).fs.readAt (env.resolveCss css) = some (.text payload.css)
    ∧ (init env).fs.readAt (pathResolve env.cwd configFileName) =
        some (.jsonFile (encodeConfig ⟨⟨t.id, css⟩, ⟨comps⟩⟩))
    ∧ decodeConfig (encodeConfig ⟨⟨t.id, css⟩, ⟨comps⟩⟩) =
        some ⟨⟨t.id, css⟩, ⟨comps⟩⟩ := by
  rw [init_valid_eq env hcwd hpkg hfw,
    promptForProjectDetails_ok env env.fs0 ts i t css comps hthemes hi ht
      hcss hcomps hrc hrs hyes]
  dsimp only
  refine ⟨?_, ?_, ?_, decodeConfig_encodeConfig _⟩
  · unfold runInit
    rw [hdata]
    have hdep : payload.dependencies.isEmpty = false := by
      simpa [List.isEmpty_iff] using hdeps
    simp [hdep, hinst]
  · exact runInit_success_css env _ _ _ payload hdata (Or.inr hinst)
  · rw [runInit_success_frame env _ _ _ payload
      (pathResolve env.cwd configFileName) hdata (Or.inr hinst)
      (Ne.symm hne1) (Ne.symm hne2) (FS.pathExists_write_self ..)]
    exact FS.readAt_write_self ..

/-- Witness for C1 at a concrete world. -/
theorem init_success_roundtrip_witness :
    (init sampleEnv).outcome = .exited 0
    ∧ (init sampleEnv).fs.readAt
        (sampleEnv.resolveCss defaultGlobalCSS) =
        some (.text "body { margin: 0; }")
    ∧ (init sampleEnv).fs.readAt
        (pathResolve sampleEnv.cwd configFileName) =
        some (.jsonFile (encodeConfig
          ⟨⟨"midnight", defaultGlobalCSS⟩, ⟨defaultComponentsAlias⟩⟩))
    ∧ decodeConfig (encodeConfig
        ⟨⟨"midnight", defaultGlobalCSS⟩, ⟨defaultComponentsAlias⟩⟩) =
        some ⟨⟨"midnight", defaultGlobalCSS⟩, ⟨defaultComponentsAlias⟩⟩ :=
  init_success_roundtrip sampleEnv sampleThemes 1 ⟨"midnight", "Midnight"⟩
    defaultGlobalCSS defaultComponentsAlias
    ⟨"body { margin: 0; }", ["clsx", "tailwind-merge"]⟩ rfl rfl (Or.inl rfl)
    rfl rfl rfl rfl rfl (by decide) (by decide) rfl rfl (by decide) rfl
    (by decide) (by decide)

/-- C10: The select prompt's choices carry each theme's `id` as their
value (the `name` is only the displayed title), so the configuration the run
persists records the selected theme's `id` in `theme.name`; that value is
the `id` of one of the themes returned by `getThemes()`. -/
theorem promptForProjectDetails_theme_id (env : Env) (ts : List Theme)
    (i : Nat) (t : Theme) (css comps : String)
    (hthemes : env.themes = .ok ts)
    (hi : env.themeAnswer = some i) (ht : ts[i]? = some t)
    (hcss : env.cssAnswer = some css)
    (hcomps : env.componentsAnswer = some comps)
    (hrc : env.resolveComponents comps ≠ "")
    (hrs : env.resolveCss css ≠ "")
    (hyes : env.proceedAnswer = some true) :
    promptForProjectDetails env env.fs0 =
      .ok ⟨⟨t.id, css⟩, ⟨comps⟩⟩
        (resolveConfigPaths env ⟨⟨t.id, css⟩, ⟨comps⟩⟩)
        (env.fs0.write (pathResolve env.cwd configFileName)
          (.jsonFile (encodeConfig ⟨⟨t.id, css⟩, ⟨comps⟩⟩)))
        [.fetchThemes, .promptAndResolve, .confirmPrompt, .persistConfig]
    ∧ t ∈ ts
    ∧ (⟨⟨t.id, css⟩, ⟨comps⟩⟩ : ProjectConfig).theme.name ∈ ts.map Theme.id := by
  refine ⟨promptForProjectDetails_ok env env.fs0 ts i t css comps hthemes hi
    ht hcss hcomps hrc hrs hyes, List.getElem?_mem ht, ?_⟩
  exact List.mem_map_of_mem Theme.id (List.getElem?_mem ht)

/-- Witness for C10 at a concrete world. -/
theorem promptForProjectDetails_theme_id_witness :
    promptForProjectDetails sampleEnv sampleEnv.fs0 =
      .ok ⟨⟨"midnight", defaultGlobalCSS⟩, ⟨defaultComponentsAlias⟩⟩
        (resolveConfigPaths sampleEnv
          ⟨⟨"midnight", defaultGlobalCSS⟩, ⟨defaultComponentsAlias⟩⟩)
        (sampleEnv.fs0.write (pathResolve sampleEnv.cwd configFileName)
          (.jsonFile (encodeConfig
            ⟨⟨"midnight", defaultGlobalCSS⟩, ⟨defaultComponentsAlias⟩⟩)))
        [.fetchThemes, .promptAndResolve, .confirmPrompt, .persistConfig]
    ∧ (⟨"midnight", "Midnight"⟩ : Theme) ∈ sampleThemes
    ∧ (⟨⟨"midnight", defaultGlobalCSS⟩,
        ⟨defaultComponentsAlias⟩⟩ : ProjectConfig).theme.name ∈
        sampleThemes.map Theme.id :=
  promptForProjectDetails_theme_id sampleEnv sampleThemes 1
    ⟨"midnight", "Midnight"⟩ defaultGlobalCSS defaultComponentsAlias rfl rfl
    rfl rfl rfl (by decide) (by decide) rfl

end AtomicUI
